import Mathlib

/-!
Verification of the drone-runner-macstadium engine (engine/engine.go and
internal/orka/client.go) against its natural-language specification.

The Go code is shallowly embedded: every side-effecting call (the Orka HTTP
API, ssh dialing, sftp operations, backoff sleeps) is driven by an explicit
oracle / trace of outcomes supplied as input, and each embedded function
returns the list of externally visible events it produced together with its
result, mirroring the source control flow line by line.
-/

namespace MacStadium

/-- Substring test: Go strings.Contains, as infix on the character lists. -/
def strContains (s pat : String) : Bool :=
  s.toList.tails.any (fun t => pat.toList.isPrefixOf t)

/-- Modelled from the spec (§3 Data Model): the engine.Spec struct is declared
in a file of this repository not under src/; its fields here are exactly the
ones engine.go reads and writes (Name, Settings, Files, ip). -/
structure SpecV where
  name : String
  image : String
  compute : Int
  username : String
  password : String
  ip : String
deriving DecidableEq, Repr

/-- Modelled from the spec (§3 Data Model): a File entry — path, permission
bits, directory flag, and byte content (bytes rendered as a String). -/
structure FileE where
  path : String
  mode : Nat
  isDir : Bool
  data : String
deriving DecidableEq, Repr

/-- Modelled from the spec (§3 Data Model): a pipeline Step — the fields
engine.go Run reads (command, args, working dir, envs, secrets, files). -/
structure StepE where
  name : String
  command : String
  args : List String
  workingDir : String
  envs : List (String × String)
  secrets : List (String × String)
  files : List FileE
deriving DecidableEq, Repr

/-- Externally visible events of the provisioning state machine. -/
inductive Ev where
  | deployCall
  | deleteCall (name : String)
  | sleepMinute
deriving DecidableEq, Repr

/-- engine.go Destroy (lines 130-141): no-op when no address was recorded,
otherwise one Delete API call for the spec name, returning that call's error.
The delete API outcome is supplied by the oracle del. -/
def destroy (del : String → Option String) (spec : SpecV) :
    List Ev × Option String :=
  if spec.ip = "" then ([], none)
  else ([Ev.deleteCall spec.name], del spec.name)

/-- One provisioning attempt: the Deploy API outcome (error text, or ip and
ssh port) and, when deploy succeeds, the outcome of dialRetry. -/
structure Attempt where
  deploy : Except String (String × String)
  dialOk : Except String Unit
deriving Repr

/-- engine.go create (lines 284-334): deploy the VM; on deploy failure return
the error (no destroy). On success record ip:port on the spec, then dial; on
dial failure destroy the VM best-effort (its error is discarded) and return
the dial error. -/
def create (del : String → Option String) (spec : SpecV) (a : Attempt) :
    SpecV × List Ev × Except String Unit :=
  match a.deploy with
  | Except.error m => (spec, [Ev.deployCall], Except.error m)
  | Except.ok ipport =>
    let spec' := { spec with ip := ipport.1 ++ ":" ++ ipport.2 }
    match a.dialOk with
    | Except.ok _ => (spec', [Ev.deployCall], Except.ok ())
    | Except.error m =>
      (spec', Ev.deployCall :: (destroy del spec').1, Except.error m)

/-- engine.go createRetry (lines 264-269): an error is transient iff its text
contains the capacity marker or the network marker. -/
def transientErr (m : String) : Bool :=
  strContains m "No available nodes" || strContains m "network is unreachable"

/-- Result of the createRetry loop. -/
inductive RetryErr where
  | deadline
  | fatal (m : String)
  | outOfTrace
deriving DecidableEq, Repr

/-- engine.go createRetry loop body (lines 252-281): at the loop top fail with
the deadline error once the one-hour budget (60 one-minute backoffs) is spent;
otherwise run create, return on success, classify the error — transient errors
sleep one minute and loop, any other error is returned fatally. Each loop
iteration consumes one Attempt from the trace. -/
def createRetryLoop (del : String → Option String) :
    SpecV → List Attempt → Nat → SpecV × List Ev × Except RetryErr Unit
  | spec, [], _ => (spec, [], Except.error RetryErr.outOfTrace)
  | spec, a :: rest, elapsed =>
    if 60 ≤ elapsed then (spec, [], Except.error RetryErr.deadline)
    else
      let r := create del spec a
      match r.2.2 with
      | Except.ok _ => (r.1, r.2.1, Except.ok ())
      | Except.error m =>
        if transientErr m then
          let r' := createRetryLoop del r.1 rest (elapsed + 1)
          (r'.1, r.2.1 ++ [Ev.sleepMinute] ++ r'.2.1, r'.2.2)
        else (r.1, r.2.1, Except.error (RetryErr.fatal m))

/-- engine.go createRetry (lines 244-282): one create attempt up front; on
success return; on any failure (the error text is not inspected here) enter
the one-hour retry loop with a fresh budget. -/
def createRetry (del : String → Option String) (spec : SpecV)
    (trace : List Attempt) : SpecV × List Ev × Except RetryErr Unit :=
  match trace with
  | [] => (spec, [], Except.error RetryErr.outOfTrace)
  | a :: rest =>
    let r := create del spec a
    match r.2.2 with
    | Except.ok _ => (r.1, r.2.1, Except.ok ())
    | Except.error _ =>
      let r' := createRetryLoop del r.1 rest 0
      (r'.1, r.2.1 ++ r'.2.1, r'.2.2)

/-- Externally visible events of the connection (dial) retry loop. -/
inductive DialEv where
  | dialCall
  | closeCall
  | sleepTen
deriving DecidableEq, Repr

/-- Outcome of one ssh.Dial call: an error text on failure (none on success),
and whether a non-nil client was nonetheless left behind on failure (the loop
defensively closes such a client). -/
structure DialTry where
  err : Option String
  leftover : Bool
deriving Repr

/-- engine.go dialRetry loop (lines 388-423): at the loop top fail with the
deadline error once the 10-minute budget (600 seconds, in 10-second sleeps) is
spent; otherwise dial, return on success, close any leftover client, sleep
10 seconds and loop. Each iteration consumes one DialTry from the trace. -/
def dialRetryLoop : List DialTry → Nat → List DialEv × Except RetryErr Unit
  | [], _ => ([], Except.error RetryErr.outOfTrace)
  | d :: rest, elapsed =>
    if 600 ≤ elapsed then ([], Except.error RetryErr.deadline)
    else
      match d.err with
      | none => ([DialEv.dialCall], Except.ok ())
      | some _ =>
        let closes := if d.leftover then [DialEv.closeCall] else []
        let r := dialRetryLoop rest (elapsed + 10)
        (DialEv.dialCall :: closes ++ [DialEv.sleepTen] ++ r.1, r.2)

/-- engine.go dialRetry (lines 376-424): one dial attempt up front; on success
return the client; on failure start the 10-minute retry loop with a fresh
budget. -/
def dialRetry (trace : List DialTry) : List DialEv × Except RetryErr Unit :=
  match trace with
  | [] => ([], Except.error RetryErr.outOfTrace)
  | d :: rest =>
    match d.err with
    | none => ([DialEv.dialCall], Except.ok ())
    | some _ =>
      let r := dialRetryLoop rest 0
      (DialEv.dialCall :: r.1, r.2)

/-- The error session.Run can yield: a clean remote exit (ssh.ExitError with
its exit status) or any other protocol-level session error. -/
inductive SshErr where
  | exitError (status : Nat)
  | other (m : String)
deriving DecidableEq, Repr

/-- runtime.State as engine.go fills it. -/
structure RState where
  exitCode : Nat
  exited : Bool
  oomKilled : Bool
deriving DecidableEq, Repr

/-- engine.go Run, lines 217-227: start from exit code 0 with exited true and
oomKilled false; any non-nil error sets 255; an ssh.ExitError then overrides
with its exact status. -/
def runState (e : Option SshErr) : RState :=
  let s0 : RState := { exitCode := 0, exited := true, oomKilled := false }
  let s1 := if e.isSome then { s0 with exitCode := 255 } else s0
  match e with
  | some (SshErr.exitError n) => { s1 with exitCode := n }
  | _ => s1

/-- The race in engine.go Run lines 197-215: either the remote command
finishes first (with session.Run's outcome), or the caller's context is done
first; sigFailed records whether the best-effort SIGKILL signal itself
failed. -/
inductive RaceResult where
  | done (e : Option SshErr)
  | ctxDone (sigFailed : Bool) (ctxErr : String)
deriving Repr

/-- Errors Run can return: the session error, or the context's error. -/
inductive RunErr where
  | ssh (e : SshErr)
  | ctx (m : String)
deriving DecidableEq, Repr

/-- engine.go Run, lines 197-231: on cancellation, signal best-effort (the
signal's own error is only logged) and return (nil, ctx.Err()); otherwise
build the state from the session outcome and return it together with the
session's error. -/
def runOutcome (race : RaceResult) : Option RState × Option RunErr :=
  match race with
  | RaceResult.ctxDone _ m => (none, some (RunErr.ctx m))
  | RaceResult.done e => (some (runState e), e.map RunErr.ssh)

/-- Modelled from the spec (§4.4): writeWorkdir is declared in a file of this
repository not under src/; per the spec it renders a working-directory
declaration. -/
def writeWorkdir (dir : String) : String :=
  "cd " ++ dir ++ "\n"

/-- A POSIX shell export assignment line for one key/value pair. -/
def exportLine (kv : String × String) : String :=
  "export " ++ kv.1 ++ "=" ++ kv.2 ++ "\n"

/-- Modelled from the spec (§4.4): writeSecrets is declared in a file of this
repository not under src/; per the spec it renders the secret assignments
with POSIX shell export syntax. -/
def writeSecrets (os : String) (secrets : List (String × String)) : String :=
  String.join (secrets.map exportLine)

/-- Modelled from the spec (§4.4): writeEnviron is declared in a file of this
repository not under src/; per the spec it renders the plain environment
assignments. -/
def writeEnviron (os : String) (envs : List (String × String)) : String :=
  String.join (envs.map exportLine)

/-- engine.go Run, lines 168-173: the buffer written for one step file — a
fresh buffer receives the workdir declaration, then the secrets, then the
environment, then the file's original data. -/
def stepFileBuf (step : StepE) (f : FileE) : String :=
  ((("" ++ writeWorkdir step.workingDir)
    ++ writeSecrets "posix" step.secrets)
    ++ writeEnviron "posix" step.envs)
    ++ f.data

/-- engine.go Run, lines 168-182: the uploads Run issues for a step, one per
declared file, in order: (path, composed buffer, mode). -/
def runUploads (step : StepE) : List (String × String × Nat) :=
  step.files.map (fun f => (f.path, stepFileBuf step f, f.mode))

/-- File-transfer operations issued during staging. -/
inductive StageOp where
  | mkdirAll (path : String)
  | chmodDir (path : String) (mode : Nat)
  | createF (path : String)
  | writeF (path : String) (data : String)
  | chmodF (path : String) (mode : Nat)
deriving DecidableEq, Repr

/-- Oracle for the sftp sub-protocol: the outcome of each operation. -/
def StageOracle : Type := StageOp → Option String

/-- engine.go mkdir (lines 458-464): MkdirAll, abort on error, then Chmod,
returning Chmod's error. -/
def mkdirE (o : StageOracle) (path : String) (mode : Nat) :
    List StageOp × Option String :=
  match o (StageOp.mkdirAll path) with
  | some e => ([StageOp.mkdirAll path], some e)
  | none =>
    ([StageOp.mkdirAll path, StageOp.chmodDir path mode],
      o (StageOp.chmodDir path mode))

/-- engine.go upload (lines 440-454): Create, abort on error; Write the
content, abort on error; then Chmod as a separate step, returning its
error. -/
def uploadE (o : StageOracle) (path : String) (data : String) (mode : Nat) :
    List StageOp × Option String :=
  match o (StageOp.createF path) with
  | some e => ([StageOp.createF path], some e)
  | none =>
    match o (StageOp.writeF path data) with
    | some e => ([StageOp.createF path, StageOp.writeF path data], some e)
    | none =>
      ([StageOp.createF path, StageOp.writeF path data,
        StageOp.chmodF path mode],
        o (StageOp.chmodF path mode))

/-- engine.go Setup, lines 92-104: the first pass skips non-directories and
creates each directory entry, aborting with the first error. -/
def stageDirs (o : StageOracle) : List FileE → List StageOp × Option String
  | [] => ([], none)
  | f :: rest =>
    if f.isDir = false then stageDirs o rest
    else
      match (mkdirE o f.path f.mode).2 with
      | some e => ((mkdirE o f.path f.mode).1, some e)
      | none =>
        ((mkdirE o f.path f.mode).1 ++ (stageDirs o rest).1,
          (stageDirs o rest).2)

/-- engine.go Setup, lines 109-120: the second pass skips directories and
uploads each file entry, aborting with the first error. -/
def stageFiles (o : StageOracle) : List FileE → List StageOp × Option String
  | [] => ([], none)
  | f :: rest =>
    if f.isDir = true then stageFiles o rest
    else
      match (uploadE o f.path f.data f.mode).2 with
      | some e => ((uploadE o f.path f.data f.mode).1, some e)
      | none =>
        ((uploadE o f.path f.data f.mode).1 ++ (stageFiles o rest).1,
          (stageFiles o rest).2)

/-- engine.go Setup, lines 92-120: staging runs the directory pass first and,
only if it fully succeeded, the file pass. -/
def setupStage (o : StageOracle) (files : List FileE) :
    List StageOp × Option String :=
  match (stageDirs o files).2 with
  | some e => ((stageDirs o files).1, some e)
  | none =>
    ((stageDirs o files).1 ++ (stageFiles o files).1,
      (stageFiles o files).2)

/-- internal/orka/type.go: one entry of the structured errors list. -/
structure OrkaError where
  message : String
deriving DecidableEq, Repr

/-- internal/orka/type.go: DeployResponse — the fields relevant here. -/
structure DeployResponse where
  message : String
  errors : List OrkaError
  ip : String
  sshPort : String
deriving DecidableEq, Repr

/-- The ways an HTTP round trip in Client.Do can go: a transport error, a
body-read error, or a body whose JSON either fails to unmarshal into the
response struct or yields a parsed response value. -/
inductive HttpOutcome where
  | transportErr (m : String)
  | readErr (m : String)
  | body (parsed : Except String DeployResponse)
deriving Repr

/-- internal/orka/client.go Client.Do (lines 76-115): return the transport
error, the read error, or json.Unmarshal's result; a successfully parsed
body — whatever its errors field holds — yields no error. -/
def clientDo (i : HttpOutcome) : Option DeployResponse × Option String :=
  match i with
  | HttpOutcome.transportErr m => (none, some m)
  | HttpOutcome.readErr m => (none, some m)
  | HttpOutcome.body (Except.error m) => (none, some m)
  | HttpOutcome.body (Except.ok r) => (some r, none)

/-- internal/orka/client.go Deploy (lines 42-48): a POST through Do, whose
error is returned unchanged. -/
def clientDeploy (i : HttpOutcome) : Option DeployResponse × Option String :=
  clientDo i

/-- Classifier: operations issued by the directory pass. -/
def isDirOp : StageOp → Bool
  | StageOp.mkdirAll _ => true
  | StageOp.chmodDir _ _ => true
  | _ => false

/-- Classifier: operations issued by the file pass. -/
def isFileOp : StageOp → Bool
  | StageOp.createF _ => true
  | StageOp.writeF _ _ => true
  | StageOp.chmodF _ _ => true
  | _ => false

/-- Classifier: delete API calls, whatever the VM name. -/
def isDeleteEv : Ev → Bool
  | Ev.deleteCall _ => true
  | _ => false

/-- A concrete pipeline specification fresh out of the compiler: no address
recorded yet. -/
def specC : SpecV :=
  { name := "vm1", image := "90GCatalinaSSH.img", compute := 6,
    username := "u", password := "p", ip := "" }

/-- The same specification after an address was recorded. -/
def specWithIp : SpecV :=
  { specC with ip := "1.2.3.4:22" }

/-- An attempt whose Deploy call fails with a non-transient error text. -/
def fatalAttempt : Attempt :=
  { deploy := Except.error "vm image not found", dialOk := Except.ok () }

/-- An attempt whose Deploy call and dial both succeed. -/
def okAttempt : Attempt :=
  { deploy := Except.ok ("1.2.3.4", "22"), dialOk := Except.ok () }

/-- An attempt whose Deploy call fails with the capacity-exhaustion text. -/
def capAttempt : Attempt :=
  { deploy := Except.error "No available nodes with sufficient CPU",
    dialOk := Except.ok () }

/-- The scenario trace of C2: three capacity failures, then success. -/
def capTrace : List Attempt :=
  [capAttempt, capAttempt, capAttempt, okAttempt]

/-- A dial attempt that fails with no client left behind. -/
def failTry : DialTry :=
  { err := some "connection refused", leftover := false }

/-- A parsed Deploy response whose structured errors list carries the
capacity-exhaustion message. -/
def capacityBody : DeployResponse :=
  { message := "", errors := [{ message := "No available nodes with sufficient CPU" }],
    ip := "", sshPort := "" }

/-- A concrete step declaring one script file, for witnesses. -/
def stepC : StepE :=
  { name := "build", command := "/bin/sh", args := ["-e", "/tmp/scripts/build"],
    workingDir := "/tmp/source",
    envs := [("FOO", "bar")], secrets := [("TOKEN", "s3cr3t")],
    files := [{ path := "/tmp/scripts/build", mode := 448, isDir := false,
                data := "echo $FOO\n" }] }

/-- A concrete global file list: one directory, one file. -/
def filesC : List FileE :=
  [{ path := "/tmp/source", mode := 448, isDir := true, data := "" },
   { path := "/tmp/source/.netrc", mode := 384, isDir := false,
     data := "machine m login l password p" }]

/-!
Theorems. One main theorem per claim of the specification, with witnesses
for theorems that carry hypotheses and counterexamples where the claim
fails on the code.
-/

/-- A recorded address of the form ip ++ ":" ++ port is never empty. -/
theorem ip_colon_port_ne_empty (s t : String) : s ++ ":" ++ t ≠ "" := by
  intro h
  have hl := congrArg String.length h
  simp [String.length_append] at hl
  exact absurd hl.1.2 (by decide)

/-- C3: Run translates the remote outcome into a result state: success gives
exit code 0; a protocol-level session error (not a clean remote exit) gives
255; a clean remote exit with status N gives exactly N; in every case the
exited flag is true and the OOM-killed flag is false. -/
theorem run_exit_code_translation :
    runState none = { exitCode := 0, exited := true, oomKilled := false }
  ∧ (∀ m, runState (some (SshErr.other m))
      = { exitCode := 255, exited := true, oomKilled := false })
  ∧ (∀ n, runState (some (SshErr.exitError n))
      = { exitCode := n, exited := true, oomKilled := false }) :=
  ⟨rfl, fun _ => rfl, fun _ => rfl⟩

/-- C10: a clean remote exit with nonzero status makes Run return both a
non-nil result (carrying that status) and a non-nil error — the session's
exit error is propagated alongside the result. -/
theorem run_nonzero_exit_returns_result_and_error (n : Nat) :
    runOutcome (RaceResult.done (some (SshErr.exitError n)))
      = (some { exitCode := n, exited := true, oomKilled := false },
          some (RunErr.ssh (SshErr.exitError n))) :=
  rfl

/-- C6: when cancellation fires before the remote command completes, Run
returns no result and exactly the cancellation error, whether or not the
best-effort termination signal itself failed (its failure is swallowed). -/
theorem run_cancellation (sigFailed : Bool) (m : String) :
    runOutcome (RaceResult.ctxDone sigFailed m) = (none, some (RunErr.ctx m)) :=
  rfl

/-- C9: Destroy is a no-op returning success (and issuing no delete call)
when no address was ever recorded; with a recorded address it issues one
delete call for the specification's name and returns that call's error. -/
theorem destroy_skip_or_delete (del : String → Option String) (spec : SpecV) :
    (spec.ip = "" → destroy del spec = ([], none))
  ∧ (spec.ip ≠ "" →
      destroy del spec = ([Ev.deleteCall spec.name], del spec.name)) := by
  refine ⟨fun h => ?_, fun h => ?_⟩
  · simp [destroy, h]
  · simp [destroy, h]

/-- Witness for C9 at concrete specifications with and without an address. -/
theorem destroy_skip_or_delete_witness :
    destroy (fun _ => none) specC = ([], none)
  ∧ destroy (fun _ => some "purge failed") specWithIp
      = ([Ev.deleteCall "vm1"], some "purge failed") := by
  refine ⟨(destroy_skip_or_delete (fun _ => none) specC).1 rfl, ?_⟩
  exact (destroy_skip_or_delete (fun _ => some "purge failed") specWithIp).2
    (by decide)

/-- C8, evaluated at the failing input: a round trip whose body parses into a
response carrying the capacity-exhaustion message in its structured errors
list makes Deploy return that response with a nil error — the message text is
never surfaced as an error. -/
theorem deploy_swallows_structured_errors :
    clientDeploy (HttpOutcome.body (Except.ok capacityBody))
      = (some capacityBody, none)
  ∧ capacityBody.errors
      = [{ message := "No available nodes with sufficient CPU" }] :=
  ⟨rfl, rfl⟩

/-- C1, counterexample: the very first provisioning attempt fails with a
non-transient error text, yet createRetry does not abort with that error — it
issues a second deploy attempt (two deploy calls in total) and even succeeds
overall. -/
theorem createRetry_first_fatal_is_retried :
    transientErr "vm image not found" = false
  ∧ (createRetry (fun _ => none) specC [fatalAttempt, okAttempt]).2.2
      = Except.ok ()
  ∧ (createRetry (fun _ => none) specC [fatalAttempt, okAttempt]).2.1.count
      Ev.deployCall = 2 := by
  refine ⟨by decide, rfl, by decide⟩

/-- C1, amended: inside the retry loop (every attempt after the initial one),
an attempt failing with an error matching neither transient marker aborts the
loop immediately: the loop returns that error fatally and issues no further
deploy attempt beyond the failing one. The initial attempt before the loop is
exempt — its failure always leads into the loop regardless of error text. -/
theorem createRetryLoop_fatal_aborts (del : String → Option String)
    (spec : SpecV) (a : Attempt) (rest : List Attempt) (elapsed : Nat)
    (m : String) (hE : elapsed < 60)
    (hF : (create del spec a).2.2 = Except.error m)
    (hT : transientErr m = false) :
    createRetryLoop del spec (a :: rest) elapsed
      = ((create del spec a).1, (create del spec a).2.1,
          Except.error (RetryErr.fatal m)) := by
  have h60 : ¬ 60 ≤ elapsed := by omega
  simp only [createRetryLoop, if_neg h60, hF, hT, Bool.false_eq_true,
    if_false]

/-- Witness for the amended C1 at a concrete non-transient failure inside the
loop. -/
theorem createRetryLoop_fatal_aborts_witness :
    createRetryLoop (fun _ => none) specC [fatalAttempt] 0
      = (specC, [Ev.deployCall],
          Except.error (RetryErr.fatal "vm image not found")) :=
  createRetryLoop_fatal_aborts (fun _ => none) specC fatalAttempt [] 0
    "vm image not found" (by decide) rfl (by decide)

/-- C2, counterexample: in the scenario where the Deploy API fails three
times with the capacity text and then succeeds, the 4th deploy attempt does
succeed, but zero destroy calls are issued — not the three the claim
demands (a transient deploy failure returns before any destroy). -/
theorem createRetry_capacity_no_destroy :
    (createRetry (fun _ => none) specC capTrace).2.2 = Except.ok ()
  ∧ (createRetry (fun _ => none) specC capTrace).2.1.count Ev.deployCall = 4
  ∧ (createRetry (fun _ => none) specC capTrace).2.1.countP isDeleteEv = 0 := by
  refine ⟨rfl, by decide, by decide⟩

/-- C2, amended: a deploy attempt that fails with a transient error text
triggers no destroy call — create returns straight from the failed Deploy
call; a destroy call is issued before the next attempt exactly when Deploy
succeeded but the subsequent dial failed. In the three-capacity-failures
scenario the 4th deploy attempt succeeds after zero destroy calls, with a
one-minute backoff before each loop retry (two sleeps in this trace: the
initial failure enters the loop without a backoff). -/
theorem createRetry_capacity_scenario :
    (createRetry (fun _ => none) specC capTrace).2.1
      = [Ev.deployCall, Ev.deployCall, Ev.sleepMinute, Ev.deployCall,
          Ev.sleepMinute, Ev.deployCall]
  ∧ (createRetry (fun _ => none) specC capTrace).2.2 = Except.ok ()
  ∧ (∀ (del : String → Option String) (spec : SpecV) (m : String)
        (d : Except String Unit),
      (create del spec { deploy := Except.error m, dialOk := d }).2.1
        = [Ev.deployCall])
  ∧ (∀ (del : String → Option String) (spec : SpecV) (ip port m : String),
      (create del spec
          { deploy := Except.ok (ip, port), dialOk := Except.error m }).2.1
        = [Ev.deployCall, Ev.deleteCall spec.name]) := by
  refine ⟨by decide, rfl, fun del spec m d => rfl, fun del spec ip port m => ?_⟩
  simp [create, destroy, ip_colon_port_ne_empty ip port]

/-- C4: for every file a step declares, Run uploads to the file's path, with
the file's mode, a buffer equal to the working-directory declaration, then
the secret export assignments, then the plain environment assignments, then
the file's original data — in this exact order, so the buffer starts with
the working-directory declaration and ends with the original content. -/
theorem run_upload_composition (step : StepE) (f : FileE)
    (h : f ∈ step.files) :
    (f.path, stepFileBuf step f, f.mode) ∈ runUploads step
  ∧ stepFileBuf step f
      = writeWorkdir step.workingDir
        ++ (writeSecrets "posix" step.secrets
          ++ (writeEnviron "posix" step.envs ++ f.data))
  ∧ (∃ rest, stepFileBuf step f = writeWorkdir step.workingDir ++ rest)
  ∧ (∃ front, stepFileBuf step f = front ++ f.data) := by
  refine ⟨List.mem_map.mpr ⟨f, h, rfl⟩, ?_, ?_, ?_⟩
  · simp [stepFileBuf, String.append_assoc]
  · exact ⟨writeSecrets "posix" step.secrets
      ++ (writeEnviron "posix" step.envs ++ f.data),
      by simp [stepFileBuf, String.append_assoc]⟩
  · exact ⟨(("" ++ writeWorkdir step.workingDir)
      ++ writeSecrets "posix" step.secrets)
      ++ writeEnviron "posix" step.envs, rfl⟩

/-- Witness for C4 at a concrete step with one env var, one secret and one
script file. -/
theorem run_upload_composition_witness :
    ("/tmp/scripts/build",
      stepFileBuf stepC
        { path := "/tmp/scripts/build", mode := 448, isDir := false,
          data := "echo $FOO\n" },
      448) ∈ runUploads stepC
  ∧ stepFileBuf stepC
        { path := "/tmp/scripts/build", mode := 448, isDir := false,
          data := "echo $FOO\n" }
      = "cd /tmp/source\n" ++ ("export TOKEN=s3cr3t\n"
          ++ ("export FOO=bar\n" ++ "echo $FOO\n")) := by
  have h := run_upload_composition stepC
    { path := "/tmp/scripts/build", mode := 448, isDir := false,
      data := "echo $FOO\n" }
    (by decide)
  exact ⟨h.1, h.2.1⟩

/-- Every operation the directory pass issues is a directory operation. -/
theorem stageDirs_all_dirOps (o : StageOracle) (files : List FileE) :
    (stageDirs o files).1.all isDirOp = true := by
  induction files with
  | nil => rfl
  | cons f rest ih =>
    have hmk : (mkdirE o f.path f.mode).1.all isDirOp = true := by
      unfold mkdirE
      cases o (StageOp.mkdirAll f.path) <;> simp [isDirOp]
    unfold stageDirs
    cases hIsDir : f.isDir with
    | false => simpa using ih
    | true =>
      rw [if_neg (by simp)]
      cases hr : (mkdirE o f.path f.mode).2 with
      | some e => simpa using hmk
      | none => simp [List.all_append, hmk, ih]

/-- Every operation the file pass issues is a file operation. -/
theorem stageFiles_all_fileOps (o : StageOracle) (files : List FileE) :
    (stageFiles o files).1.all isFileOp = true := by
  induction files with
  | nil => rfl
  | cons f rest ih =>
    have hup : (uploadE o f.path f.data f.mode).1.all isFileOp = true := by
      unfold uploadE
      cases o (StageOp.createF f.path) with
      | some e => simp [isFileOp]
      | none =>
        cases o (StageOp.writeF f.path f.data) <;> simp [isFileOp]
    unfold stageFiles
    cases hIsDir : f.isDir with
    | true => simpa using ih
    | false =>
      rw [if_neg (by simp)]
      cases hr : (uploadE o f.path f.data f.mode).2 with
      | some e => simpa using hup
      | none => simp [List.all_append, hup, ih]

/-- C5: staging splits into a directory phase followed by a file phase — the
emitted operation trace is a block of directory operations followed by a
block of file operations, so every directory creation precedes every file
upload; each successful upload writes the content first and applies the
permission bits as a separate subsequent operation; and a failure on any
entry aborts staging and returns that error: a directory-phase failure ends
staging with that error and no file operation issued, a failing upload ends
the file pass at once (no later entry's operations are issued), and a
file-phase failure makes staging return that error. -/
theorem setup_staging_order (o : StageOracle) (files : List FileE) :
    (∃ t1 t2, (setupStage o files).1 = t1 ++ t2
      ∧ t1.all isDirOp = true ∧ t2.all isFileOp = true)
  ∧ (∀ p d m, (uploadE o p d m).2 = none →
      (uploadE o p d m).1
        = [StageOp.createF p, StageOp.writeF p d, StageOp.chmodF p m])
  ∧ (∀ e, (stageDirs o files).2 = some e →
      setupStage o files = ((stageDirs o files).1, some e))
  ∧ (∀ (f : FileE) rest e, f.isDir = false →
      (uploadE o f.path f.data f.mode).2 = some e →
      stageFiles o (f :: rest) = ((uploadE o f.path f.data f.mode).1, some e))
  ∧ (∀ e, (stageDirs o files).2 = none → (stageFiles o files).2 = some e →
      setupStage o files
        = ((stageDirs o files).1 ++ (stageFiles o files).1, some e)) := by
  refine ⟨?_, ?_, ?_, ?_, ?_⟩
  · unfold setupStage
    cases hr : (stageDirs o files).2 with
    | some e =>
      exact ⟨(stageDirs o files).1, [],
        by simp, stageDirs_all_dirOps o files, rfl⟩
    | none =>
      exact ⟨(stageDirs o files).1, (stageFiles o files).1, rfl,
        stageDirs_all_dirOps o files, stageFiles_all_fileOps o files⟩
  · intro p d m h
    unfold uploadE at h ⊢
    cases h1 : o (StageOp.createF p) with
    | some e => simp [h1] at h
    | none =>
      cases h2 : o (StageOp.writeF p d) with
      | some e => simp [h1, h2] at h
      | none => simp [h1, h2]
  · intro e h
    unfold setupStage
    rw [h]
  · intro f rest e hdir hfail
    unfold stageFiles
    simp only [hdir, Bool.false_eq_true, if_false, hfail]
  · intro e h1 h2
    unfold setupStage
    simp only [h1, h2]

/-- Witness for C5 at a concrete always-succeeding oracle and file list, and
at an oracle whose write operations fail. -/
theorem setup_staging_order_witness :
    (∃ t1 t2, (setupStage (fun _ => none) filesC).1 = t1 ++ t2
      ∧ t1.all isDirOp = true ∧ t2.all isFileOp = true)
  ∧ (uploadE (fun _ => none) "/tmp/scripts/build" "echo $FOO\n" 448).1
      = [StageOp.createF "/tmp/scripts/build",
          StageOp.writeF "/tmp/scripts/build" "echo $FOO\n",
          StageOp.chmodF "/tmp/scripts/build" 448]
  ∧ stageFiles
      (fun op => match op with
        | StageOp.writeF _ _ => some "disk full"
        | _ => none)
      [{ path := "/tmp/source/.netrc", mode := 384, isDir := false,
          data := "machine m login l password p" },
        { path := "/tmp/source/other", mode := 384, isDir := false,
          data := "x" }]
      = ([StageOp.createF "/tmp/source/.netrc",
          StageOp.writeF "/tmp/source/.netrc"
            "machine m login l password p"], some "disk full")
  ∧ setupStage
      (fun op => match op with
        | StageOp.writeF _ _ => some "disk full"
        | _ => none)
      filesC
      = ([StageOp.mkdirAll "/tmp/source", StageOp.chmodDir "/tmp/source" 448,
          StageOp.createF "/tmp/source/.netrc",
          StageOp.writeF "/tmp/source/.netrc"
            "machine m login l password p"], some "disk full") := by
  have h := setup_staging_order (fun _ => none) filesC
  have hf := setup_staging_order
    (fun op => match op with
      | StageOp.writeF _ _ => some "disk full"
      | _ => none)
    filesC
  refine ⟨h.1, h.2.1 "/tmp/scripts/build" "echo $FOO\n" 448 rfl, ?_, ?_⟩
  · exact hf.2.2.2.1
      { path := "/tmp/source/.netrc", mode := 384, isDir := false,
        data := "machine m login l password p" }
      [{ path := "/tmp/source/other", mode := 384, isDir := false,
          data := "x" }]
      "disk full" rfl rfl
  · exact hf.2.2.2.2 "disk full" rfl rfl

/-- C7: with every dial failing, the Connection Establisher makes the initial
attempt plus one redial every 10 seconds until the 10-minute (600 second)
budget is spent — 61 dial calls and 60 sleeps in all — and then fails with
the deadline error; a dial that succeeds before the deadline returns that
session at once with no further events; once 600 seconds have elapsed the
loop returns the deadline error without dialing again; and a failed redial
closes any leftover client before the 10-second sleep that precedes the next
redial. -/
theorem dialRetry_budget (b : Bool) (m : String) :
    (dialRetry (List.replicate 100 failTry)).2
      = Except.error RetryErr.deadline
  ∧ (dialRetry (List.replicate 100 failTry)).1.count DialEv.dialCall = 61
  ∧ (dialRetry (List.replicate 100 failTry)).1.count DialEv.sleepTen = 60
  ∧ (∀ rest elapsed, elapsed < 600 →
      dialRetryLoop ({ err := none, leftover := b } :: rest) elapsed
        = ([DialEv.dialCall], Except.ok ()))
  ∧ (∀ (d : DialTry) rest elapsed, 600 ≤ elapsed →
      dialRetryLoop (d :: rest) elapsed
        = ([], Except.error RetryErr.deadline))
  ∧ (∀ rest elapsed, elapsed < 600 →
      dialRetryLoop ({ err := some m, leftover := true } :: rest) elapsed
        = (DialEv.dialCall :: [DialEv.closeCall] ++ [DialEv.sleepTen]
            ++ (dialRetryLoop rest (elapsed + 10)).1,
            (dialRetryLoop rest (elapsed + 10)).2)) := by
  refine ⟨rfl, by decide, by decide, ?_, ?_, ?_⟩
  · intro rest elapsed h
    unfold dialRetryLoop
    rw [if_neg (by omega)]
  · intro d rest elapsed h
    unfold dialRetryLoop
    rw [if_pos h]
  · intro rest elapsed h
    conv_lhs => unfold dialRetryLoop
    rw [if_neg (by omega)]
    rfl

/-- Witness for C7 at concrete elapsed times around the deadline. -/
theorem dialRetry_budget_witness :
    dialRetryLoop [{ err := none, leftover := false }] 0
      = ([DialEv.dialCall], Except.ok ())
  ∧ dialRetryLoop [failTry] 600 = ([], Except.error RetryErr.deadline)
  ∧ dialRetryLoop [{ err := some "no route", leftover := true }] 590
      = (DialEv.dialCall :: [DialEv.closeCall] ++ [DialEv.sleepTen]
          ++ (dialRetryLoop [] 600).1, (dialRetryLoop [] 600).2) := by
  have h := dialRetry_budget false "no route"
  exact ⟨h.2.2.2.1 [] 0 (by decide),
    h.2.2.2.2.1 failTry [] 600 (by decide),
    h.2.2.2.2.2 [] 590 (by decide)⟩

end MacStadium
